import Mathlib

/-!
# Verification of `tooling/fetch_all_workspace_metadata.py`

A shallow embedding of the Databricks workspace discovery tool.  HTTP
calls are modelled as oracles: each remote endpoint is a function from
its request parameters to `Except Unit data`, where `.error ()` stands
for "the request (after the retry wrapper gave up) raised an exception"
and `.ok v` stands for a successful response whose JSON has already
been shaped into the record type the Python code reads out of it.
Python `dict.get` with a default is modelled with `Option` fields and
`Option.getD`; bracket access (`d['k']`) is modelled as a required
field.  Python `set`s are modelled as duplicate-free lists built with
an insert-if-absent operation (the claims depend only on membership
and duplicate-freedom, never on iteration order).
-/

namespace Databricks

/-! ## Retry-decorated GET (`robust_get`)

`@retry(wait=wait_fixed(2), stop=stop_after_attempt(3))` around a GET
whose non-2xx statuses raise.  The oracle `attempt k` gives the
outcome of the `k`-th GET attempt (0-indexed).  The trace records how
many attempts were issued, the sleeps (in seconds) performed between
attempts, and the final outcome handed to the caller. -/

structure RetryTrace (E R : Type) where
  attemptsMade : Nat
  delays : List Nat
  result : Except E R
deriving Repr

def robust_get {E R : Type} (attempt : Nat → Except E R) : RetryTrace E R :=
  match attempt 0 with
  | .ok r => ⟨1, [], .ok r⟩
  | .error _ =>
    match attempt 1 with
    | .ok r => ⟨2, [2], .ok r⟩
    | .error _ =>
      match attempt 2 with
      | .ok r => ⟨3, [2, 2], .ok r⟩
      | .error e => ⟨3, [2, 2], .error e⟩

/-! ## Cluster + library info -/

/-- A raw library descriptor as found in a library status entry
(`lib_status.get("library", {})`).  Each packaging key is optional;
for `maven` and `pypi` the model stores the inner value the code
reads (`lib['maven']['coordinates']`, `lib['pypi']['package']`). -/
structure RawLibrary where
  jar : Option String
  egg : Option String
  whl : Option String
  maven : Option String
  pypi : Option String
deriving DecidableEq, Repr

/-- The classification the `if`/`elif` chain attaches to a library. -/
inductive LibSpec where
  | jar (path : String)
  | egg (path : String)
  | whl (path : String)
  | maven (coordinates : String)
  | pypi (package : String)
deriving DecidableEq, Repr

/-- The `if 'jar' in lib ... elif 'pypi' in lib` chain of
`extract_cluster_info`: first present key wins, in source order. -/
def classifyLibrary (lib : RawLibrary) : Option LibSpec :=
  if let some p := lib.jar then some (.jar p)
  else if let some p := lib.egg then some (.egg p)
  else if let some p := lib.whl then some (.whl p)
  else if let some c := lib.maven then some (.maven c)
  else if let some p := lib.pypi then some (.pypi p)
  else none

/-- The shaped `info` dict: the install status string plus the
classification (absent when no recognized key is present). -/
structure LibraryInfo where
  status : String
  spec : Option LibSpec
deriving DecidableEq, Repr

structure LibStatusEntry where
  library : RawLibrary
  status : Option String
deriving DecidableEq, Repr

structure ClusterLibStatus where
  cluster_id : Option String
  library_statuses : List LibStatusEntry
deriving DecidableEq, Repr

/-- One entry of the cluster list.  `cluster['cluster_id']` and
`cluster['cluster_name']` are bracket accesses, so required; the
compute attributes are `.get` accesses, so optional.  The attributes
not inspected by any claim are bundled as an opaque payload list. -/
structure RawCluster where
  cluster_id : String
  cluster_name : String
  state : Option String
  spark_version : Option String
deriving DecidableEq, Repr

structure ClusterDetails where
  cluster_id : String
  state : Option String
  spark_version : Option String
  custom_libraries : List LibraryInfo
deriving DecidableEq, Repr

/-- Oracles for the two fetches of the cluster collector. -/
structure ClusterEnv where
  clusters : Except Unit (List RawCluster)
  libraryStatuses : Except Unit (List ClusterLibStatus)

def list_databricks_clusters (env : ClusterEnv) : List RawCluster :=
  match env.clusters with
  | .ok cs => cs
  | .error _ => []

def list_all_cluster_libraries (env : ClusterEnv) : List ClusterLibStatus :=
  match env.libraryStatuses with
  | .ok ss => ss
  | .error _ => []

/-- Python dict assignment `m[k] = v`: overwrite in place if the key
exists, else append (insertion order preserved). -/
def dictInsert {K V : Type} [DecidableEq K] (k : K) (v : V) :
    List (K × V) → List (K × V)
  | [] => [(k, v)]
  | (k', v') :: rest =>
    if k' = k then (k, v) :: rest else (k', v') :: dictInsert k v rest

/-- Python `m.get(k, d)`. -/
def dictGetD {K V : Type} [DecidableEq K] (m : List (K × V)) (k : K) (d : V) : V :=
  match m.find? (fun kv => kv.1 = k) with
  | some kv => kv.2
  | none => d

/-- Shape one `lib_status` entry into the `info` dict. -/
def shapeLibrary (ls : LibStatusEntry) : LibraryInfo :=
  { status := ls.status.getD "UNKNOWN", spec := classifyLibrary ls.library }

/-- The `lib_map` building loop. -/
def buildLibMap (statuses : List ClusterLibStatus) :
    List (Option String × List LibraryInfo) :=
  statuses.foldl
    (fun m status => dictInsert status.cluster_id (status.library_statuses.map shapeLibrary) m)
    []

/-- The per-cluster body of the `details` loop: project the compute
attributes and look the cluster id up in `lib_map`, defaulting to an
empty library list. -/
def shapeCluster (lib_map : List (Option String × List LibraryInfo))
    (cluster : RawCluster) : ClusterDetails :=
  { cluster_id := cluster.cluster_id
    state := cluster.state
    spark_version := cluster.spark_version
    custom_libraries := dictGetD lib_map (some cluster.cluster_id) [] }

/-- `extract_cluster_info`: join clusters to `lib_map` by cluster id;
the result is the `details` dict keyed by cluster name. -/
def extract_cluster_info (env : ClusterEnv) : List (String × ClusterDetails) :=
  let clusters := list_databricks_clusters env
  let lib_map := buildLibMap (list_all_cluster_libraries env)
  clusters.foldl
    (fun details cluster =>
      dictInsert cluster.cluster_name (shapeCluster lib_map cluster) details)
    []

/-! ## SQL warehouses -/

structure RawWarehouse where
  name : Option String
  state : Option String
  cluster_size : Option String
deriving DecidableEq, Repr

structure WarehouseOut where
  name : String
  state : String
  cluster_size : String
deriving DecidableEq, Repr

structure WarehouseEnv where
  warehouses : Except Unit (List RawWarehouse)

def list_sql_warehouses (env : WarehouseEnv) : List WarehouseOut :=
  match env.warehouses with
  | .error _ => []
  | .ok ws =>
    ws.map fun wh =>
      { name := wh.name.getD "N/A"
        state := wh.state.getD "UNKNOWN"
        cluster_size := wh.cluster_size.getD "N/A" }

/-! ## Unity Catalog walker

`collect_unity_catalog_structure` wraps the whole three-level nested
loop in one `try`, appending to `catalog_data` as it goes and
returning `catalog_data` after the `except` — so the first raised
exception aborts the entire walk and whatever was accumulated so far
is returned.  The embedding makes the abort explicit: the walk
carries a `Bool` abort flag, the accumulated entries, and the log of
fetches issued (each `robust_get` call appends one `CatCall`). -/

structure CatalogEntry where
  catalog : String
  schema : String
  table : String
  table_type : Option String
deriving DecidableEq, Repr

inductive CatCall where
  | catalogs
  | schemas (cat : String)
  | tables (cat sch : String)
deriving DecidableEq, Repr

/-- The tables endpoint returns pairs of `table["name"]` (bracket
access, required) and `table.get("table_type")` (optional). -/
structure CatalogEnv where
  catalogs : Except Unit (List String)
  schemas : String → Except Unit (List String)
  tables : String → String → Except Unit (List (String × Option String))

/-- Python `str.lower` on the ASCII range: per-character lowercasing
(`Char.toLower` maps exactly `A`–`Z` to `a`–`z`). -/
def pyLower (s : String) : String :=
  ⟨s.data.map Char.toLower⟩

/-- The inner `for schema in schemas` loop for one catalog:
`information_schema` (case-insensitive) is skipped before its tables
are fetched; a failing tables fetch aborts with the data accumulated
so far. -/
def walkSchemas (env : CatalogEnv) (cat : String) :
    List String → List CatalogEntry → List CatCall →
    Bool × List CatalogEntry × List CatCall
  | [], acc, log => (false, acc, log)
  | s :: rest, acc, log =>
    if pyLower s = "information_schema" then
      walkSchemas env cat rest acc log
    else
      match env.tables cat s with
      | .error _ => (true, acc, log ++ [.tables cat s])
      | .ok ts =>
        walkSchemas env cat rest
          (acc ++ ts.map fun t =>
            { catalog := cat, schema := s, table := t.1, table_type := t.2 })
          (log ++ [.tables cat s])

/-- The outer `for catalog in catalogs` loop: a failing schemas fetch,
or an abort inside the schema loop, aborts the whole walk. -/
def walkCatalogs (env : CatalogEnv) :
    List String → List CatalogEntry → List CatCall →
    Bool × List CatalogEntry × List CatCall
  | [], acc, log => (false, acc, log)
  | c :: rest, acc, log =>
    match env.schemas c with
    | .error _ => (true, acc, log ++ [.schemas c])
    | .ok schs =>
      match walkSchemas env c schs acc (log ++ [.schemas c]) with
      | (true, acc2, log2) => (true, acc2, log2)
      | (false, acc2, log2) => walkCatalogs env rest acc2 log2

def runCatalogWalk (env : CatalogEnv) : Bool × List CatalogEntry × List CatCall :=
  match env.catalogs with
  | .error _ => (true, [], [CatCall.catalogs])
  | .ok cats => walkCatalogs env cats [] [CatCall.catalogs]

/-- The value `collect_unity_catalog_structure` returns to its caller
(the `except` clause only prints, so the accumulated list is returned
whether or not the walk aborted). -/
def collect_unity_catalog_structure (env : CatalogEnv) : List CatalogEntry :=
  (runCatalogWalk env).2.1

/-! ## Jobs and runs -/

/-- `run.get("state", {})` with its two inner `.get`s. -/
structure RunState where
  life_cycle_state : Option String
  result_state : Option String
deriving DecidableEq, Repr

/-- A raw run record.  Timestamps are epoch milliseconds; the
Databricks API reports them as non-negative integers. -/
structure RunRecord where
  run_id : Option Nat
  state : Option RunState
  start_time : Option Nat
  end_time : Option Nat
deriving DecidableEq, Repr

structure JobSettings where
  name : Option String
deriving DecidableEq, Repr

/-! ### Epoch-millisecond to UTC ISO-8601 conversion

`datetime.fromtimestamp(ms/1000, tz=timezone.utc).isoformat()`.  For
millisecond inputs in the exactly-representable range the float
division round-trips to seconds plus a whole number of microseconds;
the conversion below is the exact integer computation of that result
(proleptic Gregorian, via the standard civil-from-days algorithm). -/

/-- Zero-padded decimal rendering of width 2. -/
def pad2 (n : Nat) : String :=
  if n < 10 then "0" ++ toString n else toString n

/-- Zero-padded decimal rendering of width 4. -/
def pad4 (n : Nat) : String :=
  if n < 10 then "000" ++ toString n
  else if n < 100 then "00" ++ toString n
  else if n < 1000 then "0" ++ toString n
  else toString n

/-- Zero-padded decimal rendering of width 6 (microseconds). -/
def pad6 (n : Nat) : String :=
  if n < 10 then "00000" ++ toString n
  else if n < 100 then "0000" ++ toString n
  else if n < 1000 then "000" ++ toString n
  else if n < 10000 then "00" ++ toString n
  else if n < 100000 then "0" ++ toString n
  else toString n

/-- Civil date (year, month, day) of a day count since 1970-01-01. -/
def civilFromDays (days : Nat) : Nat × Nat × Nat :=
  let z := days + 719468
  let era := z / 146097
  let doe := z % 146097
  let yoe := (doe - doe / 1460 + doe / 36524 - doe / 146096) / 365
  let y := yoe + era * 400
  let doy := doe - (365 * yoe + yoe / 4 - yoe / 100)
  let mp := (5 * doy + 2) / 153
  let d := doy - (153 * mp + 2) / 5 + 1
  let m := if mp < 10 then mp + 3 else mp - 9
  (if m ≤ 2 then y + 1 else y, m, d)

/-- `datetime.fromtimestamp(ms/1000, tz=timezone.utc).isoformat()`:
date, "T", time, microseconds only when non-zero, then the fixed
"+00:00" UTC offset. -/
def isoFromMillis (ms : Nat) : String :=
  let s := ms / 1000
  let micro := ms % 1000 * 1000
  let secOfDay := s % 86400
  let ymd := civilFromDays (s / 86400)
  pad4 ymd.1 ++ "-" ++ pad2 ymd.2.1 ++ "-" ++ pad2 ymd.2.2 ++ "T" ++
    pad2 (secOfDay / 3600) ++ ":" ++ pad2 (secOfDay % 3600 / 60) ++ ":" ++
    pad2 (secOfDay % 60) ++
    (if micro = 0 then "" else "." ++ pad6 micro) ++ "+00:00"

/-- A string is a valid UTC ISO-8601 timestamp when it is the
standard `YYYY-MM-DDTHH:MM:SS[.ffffff]+00:00` rendering of in-range
date and time components. -/
def ValidUtcIso (str : String) : Prop :=
  ∃ y m d hh mi ss,
    y ≤ 9999 ∧ 1 ≤ m ∧ m ≤ 12 ∧ 1 ≤ d ∧ d ≤ 31 ∧
    hh ≤ 23 ∧ mi ≤ 59 ∧ ss ≤ 59 ∧
    (str = pad4 y ++ "-" ++ pad2 m ++ "-" ++ pad2 d ++ "T" ++
        pad2 hh ++ ":" ++ pad2 mi ++ ":" ++ pad2 ss ++ "+00:00" ∨
     ∃ u, 1 ≤ u ∧ u ≤ 999999 ∧
       str = pad4 y ++ "-" ++ pad2 m ++ "-" ++ pad2 d ++ "T" ++
         pad2 hh ++ ":" ++ pad2 mi ++ ":" ++ pad2 ss ++ "." ++ pad6 u ++ "+00:00")

/-- The shaped run dict.  `start_time` uses `run.get("start_time", 0)`
(default 0); `end_time` uses Python truthiness of
`run.get("end_time")`, so both an absent key and a 0 value yield
`None`. -/
structure RunOut where
  run_id : Option Nat
  state : Option String
  result_state : Option String
  start_time : String
  end_time : Option String
deriving DecidableEq, Repr

def truthyNat : Option Nat → Bool
  | some v => v ≠ 0
  | none => false

def projectRun (run : RunRecord) : RunOut :=
  { run_id := run.run_id
    state := run.state.bind (·.life_cycle_state)
    result_state := run.state.bind (·.result_state)
    start_time := isoFromMillis ((run.start_time).getD 0)
    end_time :=
      if truthyNat run.end_time then some (isoFromMillis ((run.end_time).getD 0))
      else none }

structure JobOut where
  job_id : Option Nat
  name : Option String
  settings : JobSettings
  runs : List RunOut
deriving DecidableEq, Repr

/-- Oracles for the three jobs endpoints.  `jobList` yields the
summaries' `job_id`s (a `.get`, hence optional); `jobDetail` yields
the detail response's optional `settings` blob; `jobRuns` yields the
up-to-3 most recent runs for a job id. -/
structure JobsEnv where
  jobList : Except Unit (List (Option Nat))
  jobDetail : Option Nat → Except Unit (Option JobSettings)
  jobRuns : Option Nat → Except Unit (List RunRecord)

/-- The per-job loop of `list_jobs_and_runs`: the single `try` wraps
the whole loop, so the first failing detail or runs fetch aborts it
with the jobs accumulated so far. -/
def jobsLoop (env : JobsEnv) :
    List (Option Nat) → List JobOut → Bool × List JobOut
  | [], acc => (false, acc)
  | j :: rest, acc =>
    match env.jobDetail j with
    | .error _ => (true, acc)
    | .ok detail =>
      let settings := detail.getD { name := none }
      match env.jobRuns j with
      | .error _ => (true, acc)
      | .ok runs =>
        jobsLoop env rest
          (acc ++ [{ job_id := j, name := settings.name, settings := settings
                     runs := runs.map projectRun }])

def list_jobs_and_runs (env : JobsEnv) : List JobOut :=
  match env.jobList with
  | .error _ => []
  | .ok js => (jobsLoop env js []).2

/-! ## Notebook magic detection

`detect_embedded_magics` base64-decodes the exported source; the
embedding starts from the decoded text (the transport encoding is
outside the model, and every claim quantifies over the decoded text).
The regex `(?<!['\"])?%(\w+)\b` is scanned with `findall` over each
lowercased line: the optional negative look-behind is a zero-width
no-op, so a match is a `%` followed by a maximal non-empty run of
word characters (the trailing `\b` always holds at the end of a
maximal run), and the scanner resumes after each match.  Python's
`\w` on the ASCII range is `[A-Za-z0-9_]`. -/

def isWordChar (c : Char) : Bool :=
  c.isAlpha || c.isDigit || c == '_'

/-- One left-to-right `findall` pass over a line, returning the
captured `\w+` groups: a match needs a `%` with a word character
right after it and captures the maximal word-character run (the
trailing `\b` always holds at the end of a maximal run).  The regex
engine resumes after the consumed match; since a captured run holds
word characters only it holds no `%`, so continuing the scan one
character after the `%` (as below) finds exactly the same matches
and keeps the recursion structural. -/
def findMagics : List Char → List String
  | [] => []
  | c :: rest =>
    if c = '%' && (rest.head?.map isWordChar).getD false then
      String.mk (rest.takeWhile isWordChar) :: findMagics rest
    else findMagics rest

/-- Python `str.splitlines` on the line terminators the tool can
meet: `\n`, `\r\n` and `\r` each end a line, with no trailing empty
line for a trailing terminator. -/
def splitLinesAux : List Char → List Char → List (List Char)
  | [], cur => if cur = [] then [] else [cur]
  | '\r' :: '\n' :: rest, cur => cur :: splitLinesAux rest []
  | '\n' :: rest, cur => cur :: splitLinesAux rest []
  | '\r' :: rest, cur => cur :: splitLinesAux rest []
  | c :: rest, cur => splitLinesAux rest (cur ++ [c])

def splitLines (s : String) : List (List Char) :=
  splitLinesAux s.data []

def lang_magics : List String := ["python", "sql", "scala", "r"]

def other_magics : List String := ["fs", "sh", "md", "run", "pip"]

/-- Python `set.add` on a set modelled as a duplicate-free list. -/
def insertNew (x : String) (xs : List String) : List String :=
  if x ∈ xs then xs else xs ++ [x]

/-- Classify one captured token into the language-magic or
other-magic accumulator. -/
def addTok (acc : List String × List String) (tok : String) :
    List String × List String :=
  if tok ∈ lang_magics then (insertNew tok acc.1, acc.2)
  else if tok ∈ other_magics then (acc.1, insertNew tok acc.2)
  else acc

/-- The tokens `findall` captures on one line (the line is lowercased
first, as in `line.lower()`). -/
def lineMagics (line : List Char) : List String :=
  findMagics (line.map Char.toLower)

/-- `detect_embedded_magics` from the decoded text onward: the pair
of language magics and other magics found in the body. -/
def detect_embedded_magics (decoded : String) : List String × List String :=
  (splitLines decoded).foldl
    (fun acc line => (lineMagics line).foldl addTok acc)
    ([], [])

/-! ## Notebook walker -/

inductive WsObject where
  | notebook (path : String)
  | directory (path : String)
  | other (path : String)
deriving DecidableEq, Repr

structure NotebookRecord where
  path : String
  default_language : String
  embedded_languages : List String
  other_magics : List String
deriving DecidableEq, Repr

/-- Oracles for the three workspace endpoints: `listDir` is the
`workspace/list` call on a path, `status` the `get-status` call
(already projected to `.get("language", "unknown")`), and `export`
the `workspace/export` call with the base64 decoding already applied
(the decoded source text). -/
structure WsEnv where
  listDir : String → Except Unit (List WsObject)
  status : String → Except Unit String
  exportSrc : String → Except Unit String

/-- The per-notebook body of `traverse`: the two inner `try`s swallow
a failing status or export fetch independently. -/
def shapeNotebook (env : WsEnv) (p : String) : NotebookRecord :=
  let lang := match env.status p with
    | .ok l => l
    | .error _ => "unknown"
  let magics := match env.exportSrc p with
    | .ok content => detect_embedded_magics content
    | .error _ => (([] : List String), ([] : List String))
  { path := p, default_language := lang
    embedded_languages := magics.1, other_magics := magics.2 }

/-- The recursive `traverse`: a failing directory listing makes that
directory contribute nothing (the outer `try`/`return`); notebooks
are shaped in place and directories recursed into.  The source
assumes a bounded tree; the embedding bounds the recursion depth with
fuel, and every claim holds for all fuel values. -/
def traverse (env : WsEnv) : Nat → String → List NotebookRecord
  | 0, _ => []
  | fuel + 1, path =>
    match env.listDir path with
    | .error _ => []
    | .ok objs =>
      objs.flatMap fun obj =>
        match obj with
        | .notebook p => [shapeNotebook env p]
        | .directory p => traverse env fuel p
        | .other _ => []

def list_notebooks_for_workspace (env : WsEnv) (fuel : Nat)
    (path : String := "/") : List NotebookRecord :=
  traverse env fuel path

/-! ## Concrete scenario environments -/

/-- A catalog environment whose first catalog is healthy and whose
second catalog's schemas fetch fails. -/
def envCatalogPartial : CatalogEnv where
  catalogs := .ok ["a", "b"]
  schemas := fun c => if c = "a" then .ok ["s"] else .error ()
  tables := fun _ _ => .ok [("t", some "MANAGED")]

/-- A cluster environment with one healthy cluster whose all-cluster
library-status fetch fails. -/
def envClusterLibFail : ClusterEnv where
  clusters := .ok [{ cluster_id := "c1", cluster_name := "n1"
                     state := some "RUNNING", spark_version := none }]
  libraryStatuses := .error ()

/-- A workspace with a single notebook whose language fetch succeeds
but whose content export fails. -/
def envNotebookContentFail : WsEnv where
  listDir := fun p => if p = "/" then .ok [.notebook "/n"] else .error ()
  status := fun _ => .ok "PYTHON"
  exportSrc := fun _ => .error ()

/-- A workspace with two notebooks, all fetches healthy. -/
def envNotebookA : WsEnv where
  listDir := fun p => if p = "/" then .ok [.notebook "/a", .notebook "/n"] else .ok []
  status := fun q => if q = "/n" then .ok "SCALA" else .ok "PYTHON"
  exportSrc := fun _ => .ok ""

/-- The same workspace as `envNotebookA` except that notebook `/n`'s
language and content fetches fail. -/
def envNotebookB : WsEnv where
  listDir := fun p => if p = "/" then .ok [.notebook "/a", .notebook "/n"] else .ok []
  status := fun q => if q = "/n" then .error () else .ok "PYTHON"
  exportSrc := fun q => if q = "/n" then .error () else .ok ""

/-! ## Theorems -/

/-- C3: for every input, `robust_get` performs at most 3 GET
attempts with a fixed 2-second delay between attempts, a success on
any attempt (including the 2nd or 3rd) returns that successful
response having made exactly that many attempts, and a failure is
propagated to the caller only after all 3 attempts failed. -/
theorem robust_get_retry_policy {E R : Type} (attempt : Nat → Except E R) :
    (robust_get attempt).attemptsMade ≤ 3 ∧
    (robust_get attempt).delays =
      List.replicate ((robust_get attempt).attemptsMade - 1) 2 ∧
    (∀ r, attempt 0 = .ok r → robust_get attempt = ⟨1, [], .ok r⟩) ∧
    (∀ e r, attempt 0 = .error e → attempt 1 = .ok r →
      robust_get attempt = ⟨2, [2], .ok r⟩) ∧
    (∀ e e' r, attempt 0 = .error e → attempt 1 = .error e' → attempt 2 = .ok r →
      robust_get attempt = ⟨3, [2, 2], .ok r⟩) ∧
    (∀ e, (robust_get attempt).result = .error e →
      (∀ i, i < 3 → ∃ e', attempt i = .error e') ∧ attempt 2 = .error e) := by
  unfold robust_get
  cases h0 : attempt 0 with
  | ok r0 => simp [h0]
  | error e0 =>
    cases h1 : attempt 1 with
    | ok r1 => simp [h0, h1]
    | error e1 =>
      cases h2 : attempt 2 with
      | ok r2 => simp [h0, h1, h2]
      | error e2 =>
        refine ⟨by simp, by simp, by simp, by simp [h1], by simp [h2], ?_⟩
        intro e he
        have he' : e2 = e := by simpa using he
        subst he'
        refine ⟨?_, rfl⟩
        intro i hi
        interval_cases i
        · exact ⟨e0, h0⟩
        · exact ⟨e1, h1⟩
        · exact ⟨e2, h2⟩

/-- Witness for C3: a transport that fails on the first attempt and
succeeds on the second makes the wrapper return the second attempt's
response after one 2-second sleep. -/
theorem robust_get_retry_policy_witness :
    robust_get (fun k => if k = 1 then (.ok 42 : Except String Nat) else .error "boom")
      = ⟨2, [2], .ok 42⟩ :=
  (robust_get_retry_policy
    (fun k => if k = 1 then (.ok 42 : Except String Nat) else .error "boom")).2.2.2.1
    "boom" 42 rfl rfl

/-- C2: library classification is mutually exclusive and
priority-ordered.  The classification result is an `Option LibSpec`,
so at most one type is ever assigned; whenever at least one
recognized key is present exactly one is assigned, and the winner is
the first present key in the order jar, egg, whl, maven, pypi. -/
theorem classifyLibrary_priority (lib : RawLibrary) :
    ((lib.jar.isSome ∨ lib.egg.isSome ∨ lib.whl.isSome ∨ lib.maven.isSome ∨
        lib.pypi.isSome) ↔ (classifyLibrary lib).isSome) ∧
    (∀ p, lib.jar = some p → classifyLibrary lib = some (.jar p)) ∧
    (∀ p, lib.jar = none → lib.egg = some p → classifyLibrary lib = some (.egg p)) ∧
    (∀ p, lib.jar = none → lib.egg = none → lib.whl = some p →
      classifyLibrary lib = some (.whl p)) ∧
    (∀ c, lib.jar = none → lib.egg = none → lib.whl = none → lib.maven = some c →
      classifyLibrary lib = some (.maven c)) ∧
    (∀ p, lib.jar = none → lib.egg = none → lib.whl = none → lib.maven = none →
      lib.pypi = some p → classifyLibrary lib = some (.pypi p)) := by
  obtain ⟨j, e, w, m, py⟩ := lib
  cases j <;> cases e <;> cases w <;> cases m <;> cases py <;>
    simp [classifyLibrary]

/-- Witness for C2: an entry carrying all five recognized keys is
classified as a jar (the highest-priority key). -/
theorem classifyLibrary_priority_witness :
    classifyLibrary
        { jar := some "j", egg := some "e", whl := some "w"
          maven := some "m", pypi := some "p" } =
      some (.jar "j") :=
  (classifyLibrary_priority _).2.1 "j" rfl

/-- The civil date computed for any day count up to 9999-12-31 has
its month in 1..12, its day in 1..31 and its year at most 9999. -/
theorem civilFromDays_bounds (days : Nat) (h : days ≤ 2932896) :
    (civilFromDays days).1 ≤ 9999 ∧
    1 ≤ (civilFromDays days).2.1 ∧ (civilFromDays days).2.1 ≤ 12 ∧
    1 ≤ (civilFromDays days).2.2 ∧ (civilFromDays days).2.2 ≤ 31 := by
  unfold civilFromDays
  dsimp only
  split <;> split <;> omega

/-- Every epoch-millisecond value up to the end of year 9999 renders
as a valid UTC ISO-8601 timestamp string. -/
theorem validUtcIso_isoFromMillis (ms : Nat) (h : ms ≤ 253402300799999) :
    ValidUtcIso (isoFromMillis ms) := by
  have hdays : ms / 1000 / 86400 ≤ 2932896 := by omega
  obtain ⟨hy, hm1, hm2, hd1, hd2⟩ := civilFromDays_bounds (ms / 1000 / 86400) hdays
  refine ⟨(civilFromDays (ms / 1000 / 86400)).1,
    (civilFromDays (ms / 1000 / 86400)).2.1,
    (civilFromDays (ms / 1000 / 86400)).2.2,
    ms / 1000 % 86400 / 3600, ms / 1000 % 86400 % 3600 / 60,
    ms / 1000 % 86400 % 60,
    hy, hm1, hm2, hd1, hd2, by omega, by omega, by omega, ?_⟩
  by_cases hmc : ms % 1000 * 1000 = 0
  · left
    unfold isoFromMillis
    dsimp only
    rw [if_pos hmc]
    simp [String.append_assoc]
  · right
    refine ⟨ms % 1000 * 1000, by omega, by omega, ?_⟩
    unfold isoFromMillis
    dsimp only
    rw [if_neg hmc]
    simp [String.append_assoc]

/-- C7: every run's start time is the UTC ISO-8601 rendering of its
epoch-millisecond start (defaulting to 0); the end value is `none`
whenever the run reported no end time (it has not finished), and a
finished run's non-zero end time is rendered the same way; the
rendering is a valid UTC ISO-8601 string for every representable
millisecond value up to year 9999.  In particular a start time of 0
with no end time yields the valid UTC ISO-8601 string
`1970-01-01T00:00:00+00:00` and a `none` end. -/
theorem projectRun_timestamps (run : RunRecord) :
    (projectRun run).start_time = isoFromMillis (run.start_time.getD 0) ∧
    (run.end_time = none → (projectRun run).end_time = none) ∧
    (∀ ms, run.end_time = some ms → ms ≠ 0 →
      (projectRun run).end_time = some (isoFromMillis ms)) ∧
    (projectRun { run with start_time := some 0, end_time := none }).start_time
      = "1970-01-01T00:00:00+00:00" ∧
    ValidUtcIso
      (projectRun { run with start_time := some 0, end_time := none }).start_time ∧
    (projectRun { run with start_time := some 0, end_time := none }).end_time
      = none ∧
    (∀ ms, ms ≤ 253402300799999 → ValidUtcIso (isoFromMillis ms)) := by
  have hiso : isoFromMillis 0 = "1970-01-01T00:00:00+00:00" := by decide
  refine ⟨rfl, ?_, ?_, ?_, ?_, ?_, fun ms hms => validUtcIso_isoFromMillis ms hms⟩
  · intro h
    simp [projectRun, h, truthyNat]
  · intro ms h hms
    simp [projectRun, h, truthyNat, hms]
  · simpa [projectRun] using hiso
  · refine ⟨1970, 1, 1, 0, 0, 0, by omega, by omega, by omega, by omega, by omega,
      by omega, by omega, by omega, Or.inl ?_⟩
    simp only [projectRun, Option.getD_some]
    rw [hiso]
    decide
  · simp [projectRun, truthyNat]

/-- Witness for C7: the run with start 0 and no end time maps to a
`none` end, a run that finished at millisecond 7 maps to the
rendering of 7, and a present-day timestamp renders validly. -/
theorem projectRun_timestamps_witness :
    (projectRun { run_id := none, state := none, start_time := some 0
                  end_time := none }).end_time = none ∧
    (projectRun { run_id := none, state := none, start_time := some 0
                  end_time := some 7 }).end_time = some (isoFromMillis 7) ∧
    ValidUtcIso (isoFromMillis 1700000000123) :=
  ⟨(projectRun_timestamps { run_id := none, state := none, start_time := some 0
                            end_time := none }).2.1 rfl,
   (projectRun_timestamps { run_id := none, state := none, start_time := some 0
                            end_time := some 7 }).2.2.1 7 rfl (by decide),
   (projectRun_timestamps { run_id := none, state := none, start_time := some 0
                            end_time := none }).2.2.2.2.2.2 1700000000123
     (by decide)⟩

/-- C10: a run whose `end_time` field is present but equal to 0 is
projected exactly like a run with no `end_time` at all — Python
truthiness makes epoch 0 indistinguishable from an absent end time —
and in particular its emitted end value is `none`. -/
theorem projectRun_end_time_zero (run : RunRecord) :
    projectRun { run with end_time := some 0 } =
      projectRun { run with end_time := none } ∧
    (projectRun { run with end_time := some 0 }).end_time = none := by
  constructor <;> simp [projectRun, truthyNat]

/-- Entries produced by the schema loop are either inherited from the
accumulator or carry a schema that is not `information_schema`
case-insensitively. -/
theorem mem_walkSchemas (env : CatalogEnv) (cat : String) :
    ∀ (ss : List String) (acc : List CatalogEntry) (log : List CatCall)
      (x : CatalogEntry), x ∈ (walkSchemas env cat ss acc log).2.1 →
      x ∈ acc ∨ pyLower x.schema ≠ "information_schema" := by
  intro ss
  induction ss with
  | nil => intro acc log x hx; exact Or.inl hx
  | cons s rest ih =>
    intro acc log x hx
    by_cases hs : pyLower s = "information_schema"
    · rw [walkSchemas, if_pos hs] at hx
      exact ih acc log x hx
    · rw [walkSchemas, if_neg hs] at hx
      cases htab : env.tables cat s with
      | error e => rw [htab] at hx; exact Or.inl hx
      | ok ts =>
        rw [htab] at hx
        rcases ih _ _ x hx with hacc | hok
        · rcases List.mem_append.mp hacc with h | h
          · exact Or.inl h
          · right
            obtain ⟨t, _, rfl⟩ := List.mem_map.mp h
            exact hs
        · exact Or.inr hok

/-- Entries produced by the catalog loop are either inherited from
the accumulator or carry a non-`information_schema` schema. -/
theorem mem_walkCatalogs (env : CatalogEnv) :
    ∀ (cs : List String) (acc : List CatalogEntry) (log : List CatCall)
      (x : CatalogEntry), x ∈ (walkCatalogs env cs acc log).2.1 →
      x ∈ acc ∨ pyLower x.schema ≠ "information_schema" := by
  intro cs
  induction cs with
  | nil => intro acc log x hx; exact Or.inl hx
  | cons c rest ih =>
    intro acc log x hx
    cases hsch : env.schemas c with
    | error e =>
      simp only [walkCatalogs, hsch] at hx
      exact Or.inl hx
    | ok schs =>
      simp only [walkCatalogs, hsch] at hx
      cases hw : walkSchemas env c schs acc (log ++ [.schemas c]) with
      | mk aborted rest2 =>
        obtain ⟨acc2, log2⟩ := rest2
        rw [hw] at hx
        have hms := mem_walkSchemas env c schs acc (log ++ [.schemas c]) x
        rw [hw] at hms
        cases aborted with
        | true => exact hms hx
        | false =>
          rcases ih acc2 log2 x hx with hacc | hok
          · exact hms hacc
          · exact Or.inr hok

/-- C4: no tuple emitted by the catalog walker has a schema equal to
`information_schema` under case-insensitive comparison, whatever the
casing in the fetched data. -/
theorem catalog_walker_excludes_information_schema (env : CatalogEnv)
    (x : CatalogEntry) (hx : x ∈ collect_unity_catalog_structure env) :
    pyLower x.schema ≠ "information_schema" := by
  unfold collect_unity_catalog_structure runCatalogWalk at hx
  cases hcat : env.catalogs with
  | error e => rw [hcat] at hx; simp at hx
  | ok cats =>
    rw [hcat] at hx
    rcases mem_walkCatalogs env cats [] [CatCall.catalogs] x hx with h | h
    · simp at h
    · exact h

/-- Witness for C4: a walk whose source data contains the schema
`Information_Schema` (mixed case) emits only the other schema. -/
theorem catalog_walker_excludes_information_schema_witness :
    pyLower ({ catalog := "main", schema := "s", table := "t", table_type := none } :
        CatalogEntry).schema ≠ "information_schema" :=
  catalog_walker_excludes_information_schema
    { catalogs := .ok ["main"]
      schemas := fun _ => .ok ["Information_Schema", "s"]
      tables := fun _ _ => .ok [("t", none)] }
    { catalog := "main", schema := "s", table := "t", table_type := none }
    (by decide)

/-- C5: the catalog walk is fail-fast with a partial result.  A
failing tables fetch for a (non-skipped) schema makes the schema loop
return immediately with exactly the entries accumulated so far, and
later schemas of the catalog are never visited; a failing schemas
fetch does the same at the catalog level; an abort inside one
catalog's schema loop aborts the whole walk with exactly that state,
whatever catalogs remain.  The fetch log shows no call is issued
after the failing one. -/
theorem catalog_walk_fail_fast (env : CatalogEnv) :
    (∀ cat s rest acc log, pyLower s ≠ "information_schema" →
      env.tables cat s = .error () →
      walkSchemas env cat (s :: rest) acc log =
        (true, acc, log ++ [.tables cat s])) ∧
    (∀ cat s ss1 ss2 acc log, pyLower s ≠ "information_schema" →
      env.tables cat s = .error () →
      walkSchemas env cat (ss1 ++ s :: ss2) acc log =
        walkSchemas env cat (ss1 ++ [s]) acc log) ∧
    (∀ c rest acc log, env.schemas c = .error () →
      walkCatalogs env (c :: rest) acc log =
        (true, acc, log ++ [.schemas c])) ∧
    (∀ c cs1 cs2 acc log, env.schemas c = .error () →
      walkCatalogs env (cs1 ++ c :: cs2) acc log =
        walkCatalogs env (cs1 ++ [c]) acc log) ∧
    (∀ c rest ss acc log acc2 log2, env.schemas c = .ok ss →
      walkSchemas env c ss acc (log ++ [.schemas c]) = (true, acc2, log2) →
      walkCatalogs env (c :: rest) acc log = (true, acc2, log2)) := by
  have hschema1 : ∀ cat s rest acc log, pyLower s ≠ "information_schema" →
      env.tables cat s = .error () →
      walkSchemas env cat (s :: rest) acc log =
        (true, acc, log ++ [.tables cat s]) := by
    intro cat s rest acc log hs htab
    rw [walkSchemas, if_neg hs, htab]
  have hcat1 : ∀ c rest acc log, env.schemas c = .error () →
      walkCatalogs env (c :: rest) acc log =
        (true, acc, log ++ [.schemas c]) := by
    intro c rest acc log hsch
    rw [walkCatalogs, hsch]
  refine ⟨hschema1, ?_, hcat1, ?_, ?_⟩
  · intro cat s ss1
    induction ss1 with
    | nil =>
      intro ss2 acc log hs htab
      simp only [List.nil_append]
      rw [hschema1 cat s ss2 acc log hs htab, hschema1 cat s [] acc log hs htab]
    | cons s1 rest1 ih =>
      intro ss2 acc log hs htab
      by_cases hs1 : pyLower s1 = "information_schema"
      · simp only [List.cons_append, walkSchemas, if_pos hs1]
        exact ih ss2 acc log hs htab
      · simp only [List.cons_append, walkSchemas, if_neg hs1]
        cases htab1 : env.tables cat s1 with
        | error e => simp
        | ok ts => simpa using ih ss2 _ _ hs htab
  · intro c cs1
    induction cs1 with
    | nil =>
      intro cs2 acc log hsch
      simp only [List.nil_append]
      rw [hcat1 c cs2 acc log hsch, hcat1 c [] acc log hsch]
    | cons c1 rest1 ih =>
      intro cs2 acc log hsch
      simp only [List.cons_append, walkCatalogs]
      cases hsch1 : env.schemas c1 with
      | error e => simp
      | ok schs =>
        simp only []
        cases hw : walkSchemas env c1 schs acc (log ++ [.schemas c1]) with
        | mk aborted rest2 =>
          obtain ⟨acc2, log2⟩ := rest2
          cases aborted with
          | true => simp [hw]
          | false => simpa [hw] using ih cs2 acc2 log2 hsch
  · intro c rest ss acc log acc2 log2 hsch hw
    simp only [walkCatalogs, hsch, hw]

/-- Witness for C5: with a failing schemas fetch for catalog `bad`
sitting between two healthy catalogs, the walk equals the walk
truncated right after `bad`, and hitting `bad` returns exactly the
accumulated state with the failing call logged last. -/
theorem catalog_walk_fail_fast_witness :
    walkCatalogs
        { catalogs := .ok ["good", "bad", "later"]
          schemas := fun c => if c = "bad" then .error () else .ok ["s"]
          tables := fun _ _ => .ok [("t", none)] }
        ["good", "bad", "later"] [] [] =
      walkCatalogs
        { catalogs := .ok ["good", "bad", "later"]
          schemas := fun c => if c = "bad" then .error () else .ok ["s"]
          tables := fun _ _ => .ok [("t", none)] }
        ["good", "bad"] [] [] ∧
    walkCatalogs
        { catalogs := .ok ["good", "bad", "later"]
          schemas := fun c => if c = "bad" then .error () else .ok ["s"]
          tables := fun _ _ => .ok [("t", none)] }
        ["bad"]
        [{ catalog := "good", schema := "s", table := "t", table_type := none }]
        [.catalogs, .schemas "good", .tables "good" "s"] =
      (true,
        [{ catalog := "good", schema := "s", table := "t", table_type := none }],
        [.catalogs, .schemas "good", .tables "good" "s", .schemas "bad"]) :=
  ⟨(catalog_walk_fail_fast _).2.2.2.1 "bad" ["good"] ["later"] [] [] rfl,
   (catalog_walk_fail_fast _).2.2.1 "bad" [] _ _ rfl⟩

/-- Counterexample to C1: in the catalog walker a failing request
does not yield an empty collection.  With a healthy first catalog and
a failing schemas fetch for the second, the walker issues the failing
call (it is in the fetch log) yet returns the non-empty partial
data accumulated before the failure. -/
theorem catalog_failure_nonempty_output :
    collect_unity_catalog_structure envCatalogPartial =
      [{ catalog := "a", schema := "s", table := "t", table_type := some "MANAGED" }] ∧
    envCatalogPartial.schemas "b" = .error () ∧
    CatCall.schemas "b" ∈ (runCatalogWalk envCatalogPartial).2.2 ∧
    collect_unity_catalog_structure envCatalogPartial ≠ [] :=
  ⟨by decide, rfl, by decide, by decide⟩

/-- C1 (amended): no request failure aborts a collector — each
collector is a total function into its collection type — and a
failure of a collector's *initial* request yields an empty
collection; later failures in the catalog, jobs and notebook walks
yield the partial data accumulated around the failure instead. -/
theorem collectors_initial_failure_empty (envCl : ClusterEnv)
    (envW : WarehouseEnv) (envC : CatalogEnv) (envJ : JobsEnv) (envN : WsEnv)
    (fuel : Nat) (root : String) :
    (envCl.clusters = .error () → extract_cluster_info envCl = []) ∧
    (envW.warehouses = .error () → list_sql_warehouses envW = []) ∧
    (envC.catalogs = .error () → collect_unity_catalog_structure envC = []) ∧
    (envJ.jobList = .error () → list_jobs_and_runs envJ = []) ∧
    (envN.listDir root = .error () →
      list_notebooks_for_workspace envN fuel root = []) := by
  refine ⟨?_, ?_, ?_, ?_, ?_⟩
  · intro h
    simp [extract_cluster_info, list_databricks_clusters, h]
  · intro h
    simp [list_sql_warehouses, h]
  · intro h
    simp [collect_unity_catalog_structure, runCatalogWalk, h]
  · intro h
    simp [list_jobs_and_runs, h]
  · intro h
    cases fuel with
    | zero => rfl
    | succ n => simp [list_notebooks_for_workspace, traverse, h]

/-- Witness for amended C1: each collector returns its empty
collection when its initial request fails. -/
theorem collectors_initial_failure_empty_witness :
    extract_cluster_info { clusters := .error (), libraryStatuses := .error () } = [] ∧
    list_sql_warehouses { warehouses := .error () } = [] ∧
    collect_unity_catalog_structure
      { catalogs := .error (), schemas := fun _ => .error ()
        tables := fun _ _ => .error () } = [] ∧
    list_jobs_and_runs
      { jobList := .error (), jobDetail := fun _ => .error ()
        jobRuns := fun _ => .error () } = [] ∧
    list_notebooks_for_workspace
      { listDir := fun _ => .error (), status := fun _ => .error ()
        exportSrc := fun _ => .error () } 5 "/" = [] := by
  refine ⟨?_, ?_, ?_, ?_, ?_⟩
  · exact (collectors_initial_failure_empty
      { clusters := .error (), libraryStatuses := .error () }
      { warehouses := .error () }
      { catalogs := .error (), schemas := fun _ => .error ()
        tables := fun _ _ => .error () }
      { jobList := .error (), jobDetail := fun _ => .error ()
        jobRuns := fun _ => .error () }
      { listDir := fun _ => .error (), status := fun _ => .error ()
        exportSrc := fun _ => .error () } 5 "/").1 rfl
  · exact (collectors_initial_failure_empty
      { clusters := .error (), libraryStatuses := .error () }
      { warehouses := .error () }
      { catalogs := .error (), schemas := fun _ => .error ()
        tables := fun _ _ => .error () }
      { jobList := .error (), jobDetail := fun _ => .error ()
        jobRuns := fun _ => .error () }
      { listDir := fun _ => .error (), status := fun _ => .error ()
        exportSrc := fun _ => .error () } 5 "/").2.1 rfl
  · exact (collectors_initial_failure_empty
      { clusters := .error (), libraryStatuses := .error () }
      { warehouses := .error () }
      { catalogs := .error (), schemas := fun _ => .error ()
        tables := fun _ _ => .error () }
      { jobList := .error (), jobDetail := fun _ => .error ()
        jobRuns := fun _ => .error () }
      { listDir := fun _ => .error (), status := fun _ => .error ()
        exportSrc := fun _ => .error () } 5 "/").2.2.1 rfl
  · exact (collectors_initial_failure_empty
      { clusters := .error (), libraryStatuses := .error () }
      { warehouses := .error () }
      { catalogs := .error (), schemas := fun _ => .error ()
        tables := fun _ _ => .error () }
      { jobList := .error (), jobDetail := fun _ => .error ()
        jobRuns := fun _ => .error () }
      { listDir := fun _ => .error (), status := fun _ => .error ()
        exportSrc := fun _ => .error () } 5 "/").2.2.2.1 rfl
  · exact (collectors_initial_failure_empty
      { clusters := .error (), libraryStatuses := .error () }
      { warehouses := .error () }
      { catalogs := .error (), schemas := fun _ => .error ()
        tables := fun _ _ => .error () }
      { jobList := .error (), jobDetail := fun _ => .error ()
        jobRuns := fun _ => .error () }
      { listDir := fun _ => .error (), status := fun _ => .error ()
        exportSrc := fun _ => .error () } 5 "/").2.2.2.2 rfl

/-- Inserting into a dict either yields the inserted pair or keeps a
pair of the original dict. -/
theorem mem_dictInsert {K V : Type} [DecidableEq K] (k : K) (v : V)
    (m : List (K × V)) (x : K × V) (hx : x ∈ dictInsert k v m) :
    x = (k, v) ∨ x ∈ m := by
  induction m with
  | nil => simpa [dictInsert] using hx
  | cons kv rest ih =>
    obtain ⟨k', v'⟩ := kv
    by_cases h : k' = k
    · simp only [dictInsert, if_pos h] at hx
      rcases List.mem_cons.mp hx with h1 | h1
      · exact Or.inl h1
      · exact Or.inr (List.mem_cons_of_mem _ h1)
    · simp only [dictInsert, if_neg h] at hx
      rcases List.mem_cons.mp hx with h1 | h1
      · exact Or.inr (h1 ▸ List.mem_cons_self _ _)
      · rcases ih h1 with h2 | h2
        · exact Or.inl h2
        · exact Or.inr (List.mem_cons_of_mem _ h2)

/-- Every entry of the `details` fold either comes from the initial
dict or is the shaped record of one of the listed clusters. -/
theorem mem_clusterFold (lib_map : List (Option String × List LibraryInfo)) :
    ∀ (clusters : List RawCluster) (init : List (String × ClusterDetails))
      (x : String × ClusterDetails),
      x ∈ clusters.foldl
        (fun details cluster =>
          dictInsert cluster.cluster_name (shapeCluster lib_map cluster) details)
        init →
      x ∈ init ∨ ∃ c ∈ clusters, x = (c.cluster_name, shapeCluster lib_map c) := by
  intro clusters
  induction clusters with
  | nil => intro init x hx; exact Or.inl hx
  | cons c rest ih =>
    intro init x hx
    rcases ih _ x hx with hin | ⟨c', hc', rfl⟩
    · rcases mem_dictInsert _ _ _ _ hin with h | h
      · exact Or.inr ⟨c, List.mem_cons_self _ _, h⟩
      · exact Or.inl h
    · exact Or.inr ⟨c', List.mem_cons_of_mem _ hc', rfl⟩

/-- Counterexample to C6: the two sub-fetches of the cluster
collector are not all-or-nothing.  When the cluster list succeeds
with one cluster and the all-cluster library-status fetch fails, the
collector still returns that cluster (with an empty library list)
instead of an empty result. -/
theorem cluster_collector_not_all_or_nothing :
    extract_cluster_info envClusterLibFail =
      [("n1", { cluster_id := "c1", state := some "RUNNING", spark_version := none
                custom_libraries := [] })] ∧
    envClusterLibFail.libraryStatuses = .error () ∧
    extract_cluster_info envClusterLibFail ≠ [] :=
  ⟨by decide, rfl, by decide⟩

/-- C6 (amended): a failing cluster-list fetch makes the collector
return an empty result, while a failing library-status fetch keeps
the clusters and gives every returned cluster an empty library list
(each failure is logged by its own fetch helper). -/
theorem extract_cluster_info_failure_modes (env : ClusterEnv) :
    (env.clusters = .error () → extract_cluster_info env = []) ∧
    (env.libraryStatuses = .error () →
      ∀ x ∈ extract_cluster_info env, x.2.custom_libraries = []) := by
  constructor
  · intro h
    simp [extract_cluster_info, list_databricks_clusters, h]
  · intro h x hx
    unfold extract_cluster_info at hx
    rw [show list_all_cluster_libraries env = [] by
          simp [list_all_cluster_libraries, h]] at hx
    rcases mem_clusterFold _ _ _ _ hx with hin | ⟨c, _, rfl⟩
    · simp at hin
    · rfl

/-- Witness for amended C6: a failing cluster list empties the
collector, and under `envClusterLibFail`'s failing library fetch the
returned cluster has an empty library list. -/
theorem extract_cluster_info_failure_modes_witness :
    extract_cluster_info { clusters := .error (), libraryStatuses := .ok [] } = [] ∧
    (("n1", ({ cluster_id := "c1", state := some "RUNNING", spark_version := none
               custom_libraries := [] } : ClusterDetails)) :
        String × ClusterDetails).2.custom_libraries = [] :=
  ⟨(extract_cluster_info_failure_modes
      { clusters := .error (), libraryStatuses := .ok [] }).1 rfl,
   (extract_cluster_info_failure_modes envClusterLibFail).2 rfl
     ("n1", { cluster_id := "c1", state := some "RUNNING", spark_version := none
              custom_libraries := [] })
     (by decide)⟩

/-- `insertNew` membership: the result holds exactly the old
elements plus the inserted one. -/
theorem mem_insertNew (x y : String) (xs : List String) :
    y ∈ insertNew x xs ↔ y ∈ xs ∨ y = x := by
  unfold insertNew
  by_cases h : x ∈ xs
  · simp only [if_pos h]
    constructor
    · exact Or.inl
    · rintro (hy | rfl)
      · exact hy
      · exact h
  · simp [if_neg h]

/-- `insertNew` keeps a duplicate-free list duplicate-free. -/
theorem nodup_insertNew (x : String) (xs : List String) (h : xs.Nodup) :
    (insertNew x xs).Nodup := by
  unfold insertNew
  by_cases hx : x ∈ xs
  · simpa [if_pos hx] using h
  · rw [if_neg hx]
    refine h.append (List.nodup_singleton x) ?_
    intro a ha hb
    rw [List.mem_singleton] at hb
    subst hb
    exact hx ha

/-- One classification step keeps both accumulators duplicate-free. -/
theorem addTok_nodup (acc : List String × List String) (tok : String)
    (h1 : acc.1.Nodup) (h2 : acc.2.Nodup) :
    (addTok acc tok).1.Nodup ∧ (addTok acc tok).2.Nodup := by
  unfold addTok
  by_cases hl : tok ∈ lang_magics
  · exact ⟨by simpa [if_pos hl] using nodup_insertNew tok acc.1 h1,
      by simpa [if_pos hl] using h2⟩
  · by_cases ho : tok ∈ other_magics
    · exact ⟨by simpa [if_neg hl, if_pos ho] using h1,
        by simpa [if_neg hl, if_pos ho] using nodup_insertNew tok acc.2 h2⟩
    · exact ⟨by simpa [if_neg hl, if_neg ho] using h1,
        by simpa [if_neg hl, if_neg ho] using h2⟩

/-- One classification step never removes an element from either
accumulator. -/
theorem addTok_mono (acc : List String × List String) (tok x : String) :
    (x ∈ acc.1 → x ∈ (addTok acc tok).1) ∧
    (x ∈ acc.2 → x ∈ (addTok acc tok).2) := by
  unfold addTok
  by_cases hl : tok ∈ lang_magics
  · exact ⟨fun hx => by simp [if_pos hl, mem_insertNew, hx],
      fun hx => by simpa [if_pos hl] using hx⟩
  · by_cases ho : tok ∈ other_magics
    · exact ⟨fun hx => by simpa [if_neg hl, if_pos ho] using hx,
      fun hx => by simp [if_neg hl, if_pos ho, mem_insertNew, hx]⟩
    · exact ⟨fun hx => by simpa [if_neg hl, if_neg ho] using hx,
      fun hx => by simpa [if_neg hl, if_neg ho] using hx⟩

/-- Folding the classifier over a token list keeps both accumulators
duplicate-free. -/
theorem foldl_addTok_nodup (toks : List String) :
    ∀ acc : List String × List String, acc.1.Nodup → acc.2.Nodup →
      (toks.foldl addTok acc).1.Nodup ∧ (toks.foldl addTok acc).2.Nodup := by
  induction toks with
  | nil => intro acc h1 h2; exact ⟨h1, h2⟩
  | cons t rest ih =>
    intro acc h1 h2
    have := addTok_nodup acc t h1 h2
    exact ih (addTok acc t) this.1 this.2

/-- Folding the classifier never removes elements. -/
theorem foldl_addTok_mono (toks : List String) :
    ∀ (acc : List String × List String) (x : String),
      (x ∈ acc.1 → x ∈ (toks.foldl addTok acc).1) ∧
      (x ∈ acc.2 → x ∈ (toks.foldl addTok acc).2) := by
  induction toks with
  | nil => intro acc x; exact ⟨id, id⟩
  | cons t rest ih =>
    intro acc x
    exact ⟨fun hx => (ih (addTok acc t) x).1 ((addTok_mono acc t x).1 hx),
      fun hx => (ih (addTok acc t) x).2 ((addTok_mono acc t x).2 hx)⟩

/-- A token of the language-magic set that occurs in the token list
ends up in the first accumulator; a token of the other-magic set ends
up in the second. -/
theorem foldl_addTok_mem (toks : List String) :
    ∀ (acc : List String × List String) (t : String), t ∈ toks →
      (t ∈ lang_magics → t ∈ (toks.foldl addTok acc).1) ∧
      (t ∈ other_magics → t ∉ lang_magics → t ∈ (toks.foldl addTok acc).2) := by
  induction toks with
  | nil => intro acc t ht; cases ht
  | cons t0 rest ih =>
    intro acc t ht
    rcases List.mem_cons.mp ht with rfl | hmem
    · constructor
      · intro hl
        refine (foldl_addTok_mono rest (addTok acc t) t).1 ?_
        simp [addTok, if_pos hl, mem_insertNew]
      · intro ho hl
        refine (foldl_addTok_mono rest (addTok acc t) t).2 ?_
        simp [addTok, if_neg hl, if_pos ho, mem_insertNew]
    · exact ih (addTok acc t0) t hmem

/-- Line-level duplicate-freedom of the two accumulators. -/
theorem foldl_lines_nodup (lines : List (List Char)) :
    ∀ acc : List String × List String, acc.1.Nodup → acc.2.Nodup →
      (lines.foldl (fun a line => (lineMagics line).foldl addTok a) acc).1.Nodup ∧
      (lines.foldl (fun a line => (lineMagics line).foldl addTok a) acc).2.Nodup := by
  induction lines with
  | nil => intro acc h1 h2; exact ⟨h1, h2⟩
  | cons l rest ih =>
    intro acc h1 h2
    have := foldl_addTok_nodup (lineMagics l) acc h1 h2
    exact ih _ this.1 this.2

/-- Line-level monotonicity of the two accumulators. -/
theorem foldl_lines_mono (lines : List (List Char)) :
    ∀ (acc : List String × List String) (x : String),
      (x ∈ acc.1 →
        x ∈ (lines.foldl (fun a line => (lineMagics line).foldl addTok a) acc).1) ∧
      (x ∈ acc.2 →
        x ∈ (lines.foldl (fun a line => (lineMagics line).foldl addTok a) acc).2) := by
  induction lines with
  | nil => intro acc x; exact ⟨id, id⟩
  | cons l rest ih =>
    intro acc x
    refine ⟨fun hx => (ih _ x).1 ?_, fun hx => (ih _ x).2 ?_⟩
    · exact (foldl_addTok_mono (lineMagics l) acc x).1 hx
    · exact (foldl_addTok_mono (lineMagics l) acc x).2 hx

/-- C8: the two magic sets are duplicate-free for every notebook
body (repeating a directive across lines adds no duplicate), a body
with a `%sql` magic on some line puts `sql` in the language-magic
set, and one with a `%run` magic on some line puts `run` in the
other-magic set. -/
theorem detect_embedded_magics_classification (decoded : String) :
    (detect_embedded_magics decoded).1.Nodup ∧
    (detect_embedded_magics decoded).2.Nodup ∧
    ((∃ line ∈ splitLines decoded, "sql" ∈ lineMagics line) →
      "sql" ∈ (detect_embedded_magics decoded).1) ∧
    ((∃ line ∈ splitLines decoded, "run" ∈ lineMagics line) →
      "run" ∈ (detect_embedded_magics decoded).2) := by
  have key : ∀ (t : String) (lines : List (List Char))
      (acc : List String × List String) (line : List Char), line ∈ lines →
      t ∈ lineMagics line →
      (t ∈ lang_magics →
        t ∈ (lines.foldl (fun a l => (lineMagics l).foldl addTok a) acc).1) ∧
      (t ∈ other_magics → t ∉ lang_magics →
        t ∈ (lines.foldl (fun a l => (lineMagics l).foldl addTok a) acc).2) := by
    intro t lines
    induction lines with
    | nil => intro acc line hline; cases hline
    | cons l rest ih =>
      intro acc line hline ht
      rcases List.mem_cons.mp hline with rfl | hmem
      · constructor
        · intro hl
          exact (foldl_lines_mono rest _ t).1
            ((foldl_addTok_mem (lineMagics line) acc t ht).1 hl)
        · intro ho hl
          exact (foldl_lines_mono rest _ t).2
            ((foldl_addTok_mem (lineMagics line) acc t ht).2 ho hl)
      · exact ih _ line hmem ht
  have hnodup := foldl_lines_nodup (splitLines decoded) ([], [])
    List.nodup_nil List.nodup_nil
  refine ⟨hnodup.1, hnodup.2, ?_, ?_⟩
  · rintro ⟨line, hline, hsql⟩
    exact (key "sql" (splitLines decoded) ([], []) line hline hsql).1 (by decide)
  · rintro ⟨line, hline, hrun⟩
    exact (key "run" (splitLines decoded) ([], []) line hline hrun).2
      (by decide) (by decide)

/-- Witness for C8: a body with `%sql` and `%run` on separate lines
and a repeated `%sql` yields `sql` among the language magics and
`run` among the other magics. -/
theorem detect_embedded_magics_classification_witness :
    "sql" ∈ (detect_embedded_magics "%sql select 1\n%run /setup\n%sql again").1 ∧
    "run" ∈ (detect_embedded_magics "%sql select 1\n%run /setup\n%sql again").2 :=
  ⟨(detect_embedded_magics_classification "%sql select 1\n%run /setup\n%sql again").2.2.1
      ⟨"%sql select 1".data, by decide, by decide⟩,
   (detect_embedded_magics_classification "%sql select 1\n%run /setup\n%sql again").2.2.2
      ⟨"%run /setup".data, by decide, by decide⟩⟩

/-- Counterexample to C9 as stated: a notebook whose content export
fails but whose language fetch succeeds is emitted with that fetched
language, not with `"unknown"`. -/
theorem notebook_content_failure_keeps_language :
    list_notebooks_for_workspace envNotebookContentFail 1 "/" =
      [{ path := "/n", default_language := "PYTHON"
         embedded_languages := [], other_magics := [] }] ∧
    envNotebookContentFail.exportSrc "/n" = .error () ∧
    (list_notebooks_for_workspace envNotebookContentFail 1 "/").map
        (fun r => r.default_language) ≠ ["unknown"] :=
  ⟨by decide, rfl, by decide⟩

/-- The per-notebook record only depends on that notebook's own
status and export fetches. -/
theorem shapeNotebook_congr (env env' : WsEnv) (q : String)
    (hs : env.status q = env'.status q) (he : env.exportSrc q = env'.exportSrc q) :
    shapeNotebook env q = shapeNotebook env' q := by
  unfold shapeNotebook
  rw [hs, he]

/-- Changing the status and export oracles at one notebook path only
cannot change the records of the other notebooks anywhere in the
walk. -/
theorem traverse_filter_congr (env env' : WsEnv) (p : String)
    (hl : env.listDir = env'.listDir)
    (hs : ∀ q, q ≠ p → env.status q = env'.status q)
    (he : ∀ q, q ≠ p → env.exportSrc q = env'.exportSrc q) :
    ∀ (fuel : Nat) (root : String),
      (traverse env fuel root).filter (fun r => r.path != p) =
        (traverse env' fuel root).filter (fun r => r.path != p) := by
  intro fuel
  induction fuel with
  | zero => intro root; rfl
  | succ n ih =>
    intro root
    cases hd : env.listDir root with
    | error e =>
      have hd' : env'.listDir root = .error e := by rw [← hl]; exact hd
      rw [traverse, traverse, hd, hd']
    | ok objs =>
      have hd' : env'.listDir root = .ok objs := by rw [← hl]; exact hd
      simp only [traverse, hd, hd']
      clear hd hd'
      induction objs with
      | nil => rfl
      | cons obj rest ihobjs =>
        rw [List.flatMap_cons, List.flatMap_cons, List.filter_append,
          List.filter_append, ihobjs]
        congr 1
        cases obj with
        | notebook q =>
          by_cases hq : q = p
          · subst hq
            simp [List.filter_cons, shapeNotebook]
          · dsimp only
            rw [shapeNotebook_congr env env' q (hs q hq) (he q hq)]
        | directory q => exact ih q
        | other q => rfl

/-- C9 (amended): a failing language fetch yields language
`"unknown"`, a failing content fetch yields empty magic sets, both
failing yields the full `"unknown"`/empty record, and either failure
is swallowed and isolated per notebook: changing the status and
export oracles of one notebook path only cannot change the record of
any other notebook in the walk. -/
theorem notebook_failure_isolation (env : WsEnv) (p : String) :
    (env.status p = .error () → (shapeNotebook env p).default_language = "unknown") ∧
    (env.exportSrc p = .error () →
      (shapeNotebook env p).embedded_languages = [] ∧
      (shapeNotebook env p).other_magics = []) ∧
    (env.status p = .error () → env.exportSrc p = .error () →
      shapeNotebook env p =
        { path := p, default_language := "unknown"
          embedded_languages := [], other_magics := [] }) ∧
    (∀ (env' : WsEnv) (fuel : Nat) (root : String),
      env.listDir = env'.listDir →
      (∀ q, q ≠ p → env.status q = env'.status q) →
      (∀ q, q ≠ p → env.exportSrc q = env'.exportSrc q) →
      (traverse env fuel root).filter (fun r => r.path != p) =
        (traverse env' fuel root).filter (fun r => r.path != p)) := by
  refine ⟨?_, ?_, ?_, ?_⟩
  · intro h
    simp [shapeNotebook, h]
  · intro h
    constructor <;> simp [shapeNotebook, h]
  · intro h1 h2
    simp [shapeNotebook, h1, h2]
  · intro env' fuel root hl hs he
    exact traverse_filter_congr env env' p hl hs he fuel root

/-- Witness for amended C9: a notebook with both fetches failing is
emitted as `"unknown"` with empty sets, and making `/n`'s fetches
fail leaves the record of the healthy sibling `/a` untouched. -/
theorem notebook_failure_isolation_witness :
    shapeNotebook envNotebookB "/n" =
      { path := "/n", default_language := "unknown"
        embedded_languages := [], other_magics := [] } ∧
    (traverse envNotebookA 1 "/").filter (fun r => r.path != "/n") =
      (traverse envNotebookB 1 "/").filter (fun r => r.path != "/n") :=
  ⟨(notebook_failure_isolation envNotebookB "/n").2.2.1 rfl rfl,
   (notebook_failure_isolation envNotebookA "/n").2.2.2 envNotebookB 1 "/" rfl
     (fun q hq => by simp [envNotebookA, envNotebookB, hq])
     (fun q hq => by simp [envNotebookA, envNotebookB, hq])⟩

end Databricks
